import Mathlib

/-!
Verification of the financial calculation layer of the ECI training app
(`src/pages/1_Session_1.py`, `src/template.py`), embedded over exact
rational arithmetic.  Each interactive widget of Session 1 evaluates a
closed-form economic formula; those formulas are transcribed here as
Lean functions on `ℚ`, keeping the source variable names.
-/

/-- Result bundle of the intertemporal-choice widget
(`src/pages/1_Session_1.py` lines 45-60). -/
structure ConsumptionResult where
  pv_income : ℚ
  c0_optimal : ℚ
  c1_optimal : ℚ
  savings : ℚ
deriving DecidableEq, Repr

/-- The intertemporal-choice computation of Session 1:
`pv_income = Y0 + Y1/(1+r)`;
`c0_optimal = pv_income * (1+r) / ((1+r) + beta)`;
`c1_optimal = pv_income * beta * (1+r)^2 / ((1+r) + beta)`;
`savings = Y0 - c0_optimal`  (lines 45, 58-60 of the source). -/
def optimalConsumption (Y0 Y1 beta r : ℚ) : ConsumptionResult :=
  let pv_income := Y0 + Y1 / (1 + r)
  let c0_optimal := pv_income * (1 + r) / ((1 + r) + beta)
  let c1_optimal := pv_income * beta * (1 + r) ^ 2 / ((1 + r) + beta)
  let savings := Y0 - c0_optimal
  ⟨pv_income, c0_optimal, c1_optimal, savings⟩

/-- Result bundle of the contingent-claims widget
(`src/pages/1_Session_1.py` lines 103-111). -/
structure StatePricesResult where
  q_G : ℚ
  q_B : ℚ
  rf_price : ℚ
  rf_rate : ℚ
deriving DecidableEq, Repr

/-- The state-price computation of Session 1, with `c0 = 100` hardcoded
as in the source: `q_G = beta_risk * pi * (c0 / c1_G)`;
`q_B = beta_risk * (1-pi) * (c0 / c1_B)`; `rf_price = q_G + q_B`;
`rf_rate = (1/rf_price - 1) * 100`  (lines 103-111 of the source). -/
def statePrices (pi beta_risk c1_G c1_B : ℚ) : StatePricesResult :=
  let c0 : ℚ := 100
  let q_G := beta_risk * pi * (c0 / c1_G)
  let q_B := beta_risk * (1 - pi) * (c0 / c1_B)
  let rf_price := q_G + q_B
  let rf_rate := (1 / rf_price - 1) * 100
  ⟨q_G, q_B, rf_price, rf_rate⟩

/-- Result bundle of the Pareto-allocation widget
(`src/pages/1_Session_1.py` lines 170-183). -/
structure ParetoResult where
  c_a2 : ℚ
  c_b1 : ℚ
  c_b2 : ℚ
  mrs_1 : ℚ
  mrs_2 : ℚ
deriving DecidableEq, Repr

/-- The Pareto-allocation computation of Session 1:
`c_a2 = Y_a - c_a1`;
`c_b1 = Y_b * beta_ge * c_a2 / (alpha * c_a1 + beta_ge * c_a2)`;
`c_b2 = Y_b - c_b1`; `mrs_1 = c_b1 / (alpha * c_a1)`;
`mrs_2 = c_b2 / (beta_ge * c_a2)`  (lines 170-183 of the source). -/
def paretoAllocation (c_a1 alpha beta_ge Y_a Y_b : ℚ) : ParetoResult :=
  let c_a2 := Y_a - c_a1
  let c_b1 := Y_b * beta_ge * c_a2 / (alpha * c_a1 + beta_ge * c_a2)
  let c_b2 := Y_b - c_b1
  let mrs_1 := c_b1 / (alpha * c_a1)
  let mrs_2 := c_b2 / (beta_ge * c_a2)
  ⟨c_a2, c_b1, c_b2, mrs_1, mrs_2⟩

/-- Discount bond price `P_discount = 1 / (1 + r)^T`
(`src/pages/1_Session_1.py` line 222). -/
def discountBondPrice (T : ℕ) (r : ℚ) : ℚ :=
  1 / (1 + r) ^ T

/-- Present value of the coupons,
`sum over t in 1..T of C / (1 + r)^t`  (line 242 of the source). -/
def pv_coupons (T : ℕ) (C r : ℚ) : ℚ :=
  ∑ t ∈ Finset.range T, C / (1 + r) ^ (t + 1)

/-- Present value of the face, `F / (1 + r)^T`  (line 243 of the source). -/
def pv_face (T : ℕ) (F r : ℚ) : ℚ :=
  F / (1 + r) ^ T

/-- Result bundle of the coupon-bond widget
(`src/pages/1_Session_1.py` lines 242-244). -/
structure CouponBondResult where
  pvCoupons : ℚ
  pvFace : ℚ
  total : ℚ
deriving DecidableEq, Repr

/-- The coupon-bond computation of Session 1:
`P_coupon = pv_coupons + pv_face`  (lines 242-244 of the source). -/
def couponBondPrice (T : ℕ) (C F r : ℚ) : CouponBondResult :=
  ⟨pv_coupons T C r, pv_face T F r, pv_coupons T C r + pv_face T F r⟩

/-- Result bundle of the risky-asset pricing widget
(`src/pages/1_Session_1.py` lines 298-320). -/
structure RiskyAssetResult where
  price_AD : ℚ
  price_RN : ℚ
  price_RA : ℚ
deriving DecidableEq, Repr

/-- The risky-asset pricing computation of Session 1:
`price_AD = qG * C_good + qB * C_bad`;
risk-neutral probabilities `pi_hat = q * (1 + rf)` normalized by their
sum, `price_RN = expected_payoff_RN / (1 + rf)`;
`price_RA = (expected_payoff - psi) / (1 + rf)`
(lines 298-320 of the source, with the hardcoded state prices,
probability and risk adjustment lifted to parameters as in the spec
signature). -/
def priceRiskyAsset (qG qB C_good C_bad pi rf psi : ℚ) : RiskyAssetResult :=
  let price_AD := qG * C_good + qB * C_bad
  let pi_hat_good := qG * (1 + rf)
  let pi_hat_bad := qB * (1 + rf)
  let total_prob := pi_hat_good + pi_hat_bad
  let pi_hat_good_norm := pi_hat_good / total_prob
  let pi_hat_bad_norm := pi_hat_bad / total_prob
  let expected_payoff_RN := pi_hat_good_norm * C_good + pi_hat_bad_norm * C_bad
  let price_RN := expected_payoff_RN / (1 + rf)
  let expected_payoff := pi * C_good + (1 - pi) * C_bad
  let price_RA := (expected_payoff - psi) / (1 + rf)
  ⟨price_AD, price_RN, price_RA⟩

/-- A rendered output element of a page: each constructor stands for
one output call of the rendering collaborator (`st.title`, `st.write`,
`st.markdown`, `st.header`, `st.expander`, `st.metric`, `st.info`,
`st.success`, `st.warning`, `st.error`, `st.dataframe`,
`st.download_button`, `st.caption`).  Long static markdown bodies are
abbreviated to short tags; numeric outputs carry their exact values. -/
inductive PageElement where
  | titleE : String → PageElement
  | writeE : String → PageElement
  | markdownE : String → PageElement
  | headerE : String → PageElement
  | expanderE : String → PageElement
  | metricE : String → ℚ → PageElement
  | infoE : String → PageElement
  | successE : String → PageElement
  | warningE : String → PageElement
  | errorE : String → PageElement
  | dataframeE : List ℚ → PageElement
  | downloadButtonE : String → String → PageElement
  | captionE : String → PageElement
deriving DecidableEq, Repr

/-- The reusable session-page template (`src/template.py` lines 3-23).
The file-storage collaborator is a map from paths to optional contents;
`none` models `open` raising `FileNotFoundError`.  The `except` branch
emits the error element and the function returns normally. -/
def session_page (fs : String → Option String) (title description : String)
    (pdf_path : Option String) : List PageElement :=
  [PageElement.titleE title, PageElement.writeE description] ++
    match pdf_path with
    | none => []
    | some p =>
      PageElement.writeE "### Download Summary" ::
        match fs p with
        | some _ =>
          [PageElement.downloadButtonE "Download PDF summary"
            ((p.splitOn "/").getLastD "")]
        | none => [PageElement.errorE ("PDF not found at path: " ++ p)]

/-- The widget-input state of the Session 1 page: one field per
on-screen control of `src/pages/1_Session_1.py`, in source order. -/
structure Session1Inputs where
  Y0 : ℚ
  Y1 : ℚ
  beta : ℚ
  r : ℚ
  pi : ℚ
  beta_risk : ℚ
  c1_G : ℚ
  c1_B : ℚ
  c_a1 : ℚ
  alpha : ℚ
  beta_ge : ℚ
  Y_a : ℚ
  Y_b : ℚ
  bond_type : String
  T_discount : ℕ
  r_discount : ℚ
  T_coupon : ℕ
  C_coupon : ℚ
  F_coupon : ℚ
  r_coupon : ℚ
  C_good : ℚ
  C_bad : ℚ
  pi_pricing : ℚ
  rf_pricing : ℚ
  q1 : Option String
  q2 : Option String
  q3 : Option String

/-- The Session 1 page (`src/pages/1_Session_1.py`), as the ordered
list of output elements it renders for a given widget-input state and
file store.  The computed numbers come from the calculator functions
above; the hardcoded constants of the risky-asset widget
(`qG = 0.45`, `qB = 0.52`, `risk_adjustment = 5.0`) are kept as in the
source (lines 298-299, 319).  Only the try/except around the download
button (lines 454-463) consults the file store. -/
def session1_page (inp : Session1Inputs) (fs : String → Option String) :
    List PageElement :=
  [PageElement.titleE "Session 1 — Asset Pricing Foundations",
   PageElement.markdownE "session overview",
   PageElement.headerE "1. Microfoundations: The Time Dimension",
   PageElement.markdownE "fisher two-period model",
   PageElement.expanderE "🔄 Interactive: Intertemporal Choice",
   PageElement.markdownE "explore discount factor and interest rates",
   PageElement.markdownE "lifetime budget constraint display",
   PageElement.metricE "Optimal c₀"
     (optimalConsumption inp.Y0 inp.Y1 inp.beta inp.r).c0_optimal,
   PageElement.metricE "Optimal c₁"
     (optimalConsumption inp.Y0 inp.Y1 inp.beta inp.r).c1_optimal,
   PageElement.metricE "Savings (s)"
     (optimalConsumption inp.Y0 inp.Y1 inp.beta inp.r).savings,
   (if (optimalConsumption inp.Y0 inp.Y1 inp.beta inp.r).savings > 0 then
      PageElement.infoE "agent saves"
    else if (optimalConsumption inp.Y0 inp.Y1 inp.beta inp.r).savings < 0 then
      PageElement.infoE "agent borrows"
    else PageElement.infoE "agent neither saves nor borrows"),
   PageElement.headerE "2. Microfoundations: The Risk Dimension",
   PageElement.markdownE "contingent claims introduction",
   PageElement.expanderE "🎲 Interactive: Contingent Claims Pricing",
   PageElement.markdownE "state prices and marginal utilities",
   PageElement.metricE "q_G (good state)"
     (statePrices inp.pi inp.beta_risk inp.c1_G inp.c1_B).q_G,
   PageElement.metricE "q_B (bad state)"
     (statePrices inp.pi inp.beta_risk inp.c1_G inp.c1_B).q_B,
   PageElement.metricE "Risk-free rate"
     (statePrices inp.pi inp.beta_risk inp.c1_G inp.c1_B).rf_rate,
   PageElement.markdownE "FOC conditions display",
   PageElement.markdownE "state price relationship display",
   PageElement.headerE "3. General Equilibrium Insights",
   PageElement.markdownE "pareto optimality and welfare theorems",
   PageElement.expanderE "⚖️ Interactive: Pareto Optimality",
   PageElement.markdownE "visualize pareto optimal allocations",
   PageElement.dataframeE
     [inp.c_a1,
      (paretoAllocation inp.c_a1 inp.alpha inp.beta_ge inp.Y_a inp.Y_b).c_a2,
      (paretoAllocation inp.c_a1 inp.alpha inp.beta_ge inp.Y_a inp.Y_b).c_b1,
      (paretoAllocation inp.c_a1 inp.alpha inp.beta_ge inp.Y_a inp.Y_b).c_b2,
      (paretoAllocation inp.c_a1 inp.alpha inp.beta_ge inp.Y_a inp.Y_b).mrs_1,
      (paretoAllocation inp.c_a1 inp.alpha inp.beta_ge inp.Y_a inp.Y_b).mrs_2],
   (if |(paretoAllocation inp.c_a1 inp.alpha inp.beta_ge inp.Y_a inp.Y_b).mrs_1 -
        (paretoAllocation inp.c_a1 inp.alpha inp.beta_ge inp.Y_a inp.Y_b).mrs_2| <
        1 / 100 then
      PageElement.successE "pareto optimal"
    else PageElement.warningE "not pareto optimal"),
   PageElement.headerE "4. Pricing Safe Cash Flows",
   PageElement.markdownE "discount and coupon bond formulas",
   PageElement.expanderE "💰 Interactive: Bond Pricing",
   PageElement.markdownE "calculate bond prices"] ++
  (if inp.bond_type = "Discount Bond" then
     [PageElement.metricE "Bond Price"
        (discountBondPrice inp.T_discount inp.r_discount),
      PageElement.markdownE "discount bond calculation display"]
   else
     [PageElement.metricE "Bond Price"
        (couponBondPrice inp.T_coupon inp.C_coupon inp.F_coupon inp.r_coupon).total,
      PageElement.dataframeE
        [(couponBondPrice inp.T_coupon inp.C_coupon inp.F_coupon inp.r_coupon).pvCoupons,
         (couponBondPrice inp.T_coupon inp.C_coupon inp.F_coupon inp.r_coupon).pvFace,
         (couponBondPrice inp.T_coupon inp.C_coupon inp.F_coupon inp.r_coupon).total],
      (if (couponBondPrice inp.T_coupon inp.C_coupon inp.F_coupon inp.r_coupon).total >
          inp.F_coupon then
         PageElement.infoE "premium"
       else if (couponBondPrice inp.T_coupon inp.C_coupon inp.F_coupon
           inp.r_coupon).total < inp.F_coupon then
         PageElement.infoE "discount"
       else PageElement.infoE "par")]) ++
  [PageElement.headerE "5. Pricing Risky Cash Flows",
   PageElement.markdownE "three pricing approaches",
   PageElement.expanderE "📊 Interactive: Compare Pricing Methods",
   PageElement.markdownE "price a risky asset with different approaches",
   PageElement.markdownE "### Pricing Results",
   PageElement.dataframeE
     [(priceRiskyAsset (45 / 100) (52 / 100) inp.C_good inp.C_bad
         inp.pi_pricing inp.rf_pricing 5).price_AD,
      (priceRiskyAsset (45 / 100) (52 / 100) inp.C_good inp.C_bad
         inp.pi_pricing inp.rf_pricing 5).price_RN,
      (priceRiskyAsset (45 / 100) (52 / 100) inp.C_good inp.C_bad
         inp.pi_pricing inp.rf_pricing 5).price_RA],
   PageElement.infoE "key insight: the three methods are equivalent",
   PageElement.headerE "6. No-Arbitrage vs. Equilibrium",
   PageElement.markdownE "two complementary perspectives",
   PageElement.expanderE "🎓 Key Takeaways",
   PageElement.markdownE "core concepts from this session",
   PageElement.headerE "7. 🧠 Test Your Understanding",
   PageElement.expanderE "📝 Quiz"] ++
  (match inp.q1 with
   | some s =>
     [if s = "The agent neither saves nor borrows" then
        PageElement.successE "Q1 correct"
      else PageElement.errorE "Q1 incorrect"]
   | none => []) ++
  [PageElement.markdownE "---"] ++
  (match inp.q2 with
   | some s =>
     [if s = "Because marginal utility is higher when consumption is low" then
        PageElement.successE "Q2 correct"
      else PageElement.errorE "Q2 incorrect"]
   | none => []) ++
  [PageElement.markdownE "---"] ++
  (match inp.q3 with
   | some s =>
     [if s = "All competitive equilibria are Pareto optimal" then
        PageElement.successE "Q3 correct"
      else PageElement.errorE "Q3 incorrect"]
   | none => []) ++
  [PageElement.headerE "8. 📥 Download Materials",
   PageElement.markdownE "download the complete lecture notes"] ++
  (match fs "summaries/session1_summary.pdf" with
   | some _ =>
     [PageElement.downloadButtonE "📄 Download PDF Summary"
        "session1_asset_pricing_foundations.pdf"]
   | none => [PageElement.errorE "PDF not found. Please contact the instructor."]) ++
  [PageElement.markdownE "---",
   PageElement.captionE "Session 1 • Asset Pricing Foundations • Use the sidebar to navigate"]

/-- The elements produced by the download try/except of the Session 1
page: the download button on success, the specific error message on a
missing file. -/
def is_download_outcome : PageElement → Bool
  | PageElement.downloadButtonE _ _ => true
  | PageElement.errorE s => s == "PDF not found. Please contact the instructor."
  | _ => false

/-- Everything a page renders other than the outcome of its download
try/except. -/
def removeDownloadSection (l : List PageElement) : List PageElement :=
  l.filter fun e => ! is_download_outcome e

/-- Empty file store: every open fails with file-not-found. -/
def fsNone : String → Option String := fun _ => none

/-- Full file store: every open succeeds. -/
def fsSome : String → Option String := fun _ => some "pdf-bytes"

/-- The Session 1 widget-input state with every control at its default
value (`Y0 = Y1 = 100`, `β = 0.95`, `r = 0.03`, `π = 0.6`,
`β_risk = 0.95`, `c1_G = 120`, `c1_B = 80`, `c_a1 = 5`, `α = β = 1`,
`Y_a = Y_b = 10`, discount bond with `T = 10`, `r = 0.03`, coupon bond
defaults `T = 10`, `C = 5`, `F = 100`, `r = 0.03`, payoffs `150`/`50`,
`π = 0.6`, `rf = 0.03`, no quiz answers selected). -/
def session1DefaultInputs : Session1Inputs :=
  ⟨100, 100, 19 / 20, 3 / 100, 3 / 5, 19 / 20, 120, 80, 5, 1, 1, 10, 10,
   "Discount Bond", 10, 3 / 100, 10, 5, 100, 3 / 100, 150, 50, 3 / 5, 3 / 100,
   none, none, none⟩

/-- C3: for every input with `1+r ≠ 0` and `(1+r)+β ≠ 0`,
`optimalConsumption` returns exactly `pv = Y0 + Y1/(1+r)`,
`c0 = pv(1+r)/((1+r)+β)`, `c1 = pv·β·(1+r)²/((1+r)+β)` and
`savings = Y0 − c0`. -/
theorem optimalConsumption_closed_form (Y0 Y1 beta r : ℚ)
    (_h1 : 1 + r ≠ 0) (_h2 : (1 + r) + beta ≠ 0) :
    (optimalConsumption Y0 Y1 beta r).pv_income = Y0 + Y1 / (1 + r) ∧
    (optimalConsumption Y0 Y1 beta r).c0_optimal =
      (Y0 + Y1 / (1 + r)) * (1 + r) / ((1 + r) + beta) ∧
    (optimalConsumption Y0 Y1 beta r).c1_optimal =
      (Y0 + Y1 / (1 + r)) * beta * (1 + r) ^ 2 / ((1 + r) + beta) ∧
    (optimalConsumption Y0 Y1 beta r).savings =
      Y0 - (Y0 + Y1 / (1 + r)) * (1 + r) / ((1 + r) + beta) := by
  refine ⟨rfl, rfl, rfl, rfl⟩

/-- Witness for `optimalConsumption_closed_form` at
`(Y0, Y1, β, r) = (100, 100, 0.95, 0.05)`. -/
theorem optimalConsumption_closed_form_witness :
    (1 + (1 : ℚ) / 20 ≠ 0) ∧
    (optimalConsumption 100 100 (19 / 20) (1 / 20)).pv_income =
      100 + 100 / (1 + (1 : ℚ) / 20) :=
  ⟨by norm_num,
   (optimalConsumption_closed_form 100 100 (19 / 20) (1 / 20)
     (by norm_num) (by norm_num)).1⟩

/-- C1: the lifetime budget constraint claimed by the source comment
(line 56, `c0 + c1/(1+r) = pv_income`) is violated by the computed
values at the quiz scenario `(Y0, Y1, β, r) = (100, 100, 0.95, 0.05)`:
the code yields `c0 + c1/(1+r) = 1599/8 = 199.875` while
`pv = 4100/21 ≈ 195.238`. -/
theorem budget_constraint_violated_at_quiz_input :
    (optimalConsumption 100 100 (19 / 20) (1 / 20)).c0_optimal +
      (optimalConsumption 100 100 (19 / 20) (1 / 20)).c1_optimal / (1 + (1 : ℚ) / 20)
      ≠ 100 + 100 / (1 + (1 : ℚ) / 20) := by
  norm_num [optimalConsumption]

/-- C2: at the built-in quiz scenario
`(Y0, Y1, β, r) = (100, 100, 0.95, 0.05)` the code computes
`pv = 4100/21 = 195.238...` but `c0 = 205/2 = 102.5` and
`savings = -5/2 = -2.5`, not the `c0 ≈ 100.12` and near-zero
`savings ≈ -0.12` of the claim: `c0` is more than 2 away from `100.12`. -/
theorem quiz_scenario_outputs :
    (optimalConsumption 100 100 (19 / 20) (1 / 20)).pv_income = 4100 / 21 ∧
    (optimalConsumption 100 100 (19 / 20) (1 / 20)).c0_optimal = 205 / 2 ∧
    (optimalConsumption 100 100 (19 / 20) (1 / 20)).savings = -(5 / 2) ∧
    2 ≤ |(optimalConsumption 100 100 (19 / 20) (1 / 20)).c0_optimal - 10012 / 100| := by
  refine ⟨?_, ?_, ?_, ?_⟩ <;> norm_num [optimalConsumption]
  rw [abs_of_nonneg (by norm_num : (0 : ℚ) ≤ 119 / 50)]
  norm_num

/-- C4: in the symmetric case `α = β > 0` with `c_a1 = Ya/2`, the
allocation produced by `paretoAllocation` equalizes the two marginal
rates of substitution exactly. -/
theorem pareto_symmetric_equal_mrs (alpha beta_ge Y_a Y_b : ℚ)
    (hab : alpha = beta_ge) (ha : 0 < alpha) (hYa : 0 < Y_a) (_hYb : 0 < Y_b) :
    (paretoAllocation (Y_a / 2) alpha beta_ge Y_a Y_b).mrs_1 =
      (paretoAllocation (Y_a / 2) alpha beta_ge Y_a Y_b).mrs_2 := by
  subst hab
  simp only [paretoAllocation]
  have e1 : Y_a - Y_a / 2 = Y_a / 2 := by ring
  rw [e1]
  have e2 : alpha * (Y_a / 2) + alpha * (Y_a / 2) = alpha * Y_a := by ring
  rw [e2]
  have hd : alpha * Y_a ≠ 0 := mul_ne_zero (ne_of_gt ha) (ne_of_gt hYa)
  have hb1 : Y_b * alpha * (Y_a / 2) / (alpha * Y_a) = Y_b / 2 := by
    field_simp
    ring
  rw [hb1]
  congr 1
  ring

/-- Witness for `pareto_symmetric_equal_mrs` at
`α = β = 1`, `Ya = Yb = 10`. -/
theorem pareto_symmetric_equal_mrs_witness :
    ((1 : ℚ) = 1) ∧
    (paretoAllocation ((10 : ℚ) / 2) 1 1 10 10).mrs_1 =
      (paretoAllocation ((10 : ℚ) / 2) 1 1 10 10).mrs_2 :=
  ⟨rfl,
   pareto_symmetric_equal_mrs 1 1 10 10 rfl (by norm_num) (by norm_num) (by norm_num)⟩

/-- C5: for `0 < c_a1 < Ya`, `α, β, Yb > 0`, the returned marginal
rates of substitution always satisfy the scaled identity
`MRS1·(α·c_a1)² = MRS2·(β·c_a2)²` with `c_a2 = Ya − c_a1`; hence
`MRS1 = MRS2` whenever `α·c_a1 = β·c_a2`; and for `α·c_a1 ≠ β·c_a2`
the derived allocation does not equalize the MRS in general: at
`(c_a1, α, β, Ya, Yb) = (2, 1, 1, 10, 10)` the outputs fail the
`|MRS1 − MRS2| < 0.01` optimality test. -/
theorem pareto_mrs_scaled_identity (c_a1 alpha beta_ge Y_a Y_b : ℚ)
    (h1 : 0 < c_a1) (h2 : c_a1 < Y_a) (h3 : 0 < alpha) (h4 : 0 < beta_ge)
    (_h5 : 0 < Y_b) :
    ((paretoAllocation c_a1 alpha beta_ge Y_a Y_b).mrs_1 * (alpha * c_a1) ^ 2 =
      (paretoAllocation c_a1 alpha beta_ge Y_a Y_b).mrs_2 *
        (beta_ge * (Y_a - c_a1)) ^ 2) ∧
    (alpha * c_a1 = beta_ge * (Y_a - c_a1) →
      (paretoAllocation c_a1 alpha beta_ge Y_a Y_b).mrs_1 =
        (paretoAllocation c_a1 alpha beta_ge Y_a Y_b).mrs_2) ∧
    ¬ |(paretoAllocation 2 1 1 10 10).mrs_1 -
        (paretoAllocation 2 1 1 10 10).mrs_2| < 1 / 100 := by
  have hc2 : 0 < Y_a - c_a1 := by linarith
  have ha1 : alpha * c_a1 ≠ 0 := mul_ne_zero (ne_of_gt h3) (ne_of_gt h1)
  have hb2 : beta_ge * (Y_a - c_a1) ≠ 0 := mul_ne_zero (ne_of_gt h4) (ne_of_gt hc2)
  have hD : alpha * c_a1 + beta_ge * (Y_a - c_a1) ≠ 0 := by
    have : 0 < alpha * c_a1 + beta_ge * (Y_a - c_a1) := by positivity
    exact ne_of_gt this
  have hmain :
      (paretoAllocation c_a1 alpha beta_ge Y_a Y_b).mrs_1 * (alpha * c_a1) ^ 2 =
        (paretoAllocation c_a1 alpha beta_ge Y_a Y_b).mrs_2 *
          (beta_ge * (Y_a - c_a1)) ^ 2 := by
    simp only [paretoAllocation]
    field_simp
    ring
  refine ⟨hmain, ?_, ?_⟩
  · intro heq
    have hsq : (alpha * c_a1) ^ 2 ≠ 0 := pow_ne_zero _ ha1
    apply mul_right_cancel₀ hsq
    rw [hmain, heq]
  · norm_num [paretoAllocation]
    rw [abs_of_nonneg (by norm_num : (0 : ℚ) ≤ 15 / 4)]
    norm_num

/-- Witness for `pareto_mrs_scaled_identity` at
`(c_a1, α, β, Ya, Yb) = (2, 1, 1, 10, 10)`. -/
theorem pareto_mrs_scaled_identity_witness :
    (0 : ℚ) < 2 ∧
    (paretoAllocation 2 1 1 10 10).mrs_1 * ((1 : ℚ) * 2) ^ 2 =
      (paretoAllocation 2 1 1 10 10).mrs_2 * ((1 : ℚ) * (10 - 2)) ^ 2 :=
  ⟨by norm_num,
   (pareto_mrs_scaled_identity 2 1 1 10 10 (by norm_num) (by norm_num)
     (by norm_num) (by norm_num) (by norm_num)).1⟩

/-- C6 counterexample: at `π = 1/2`, `β = 0`, `c1_G = c1_B = 100` the
outputs of `statePrices` are `q_G = q_B = 0` and the state-price ratio
does not equal `(π/(1−π))·(c1_B/c1_G) = 1` (in the source, evaluating
`q_G / q_B` there divides by zero). -/
theorem state_price_ratio_fails_at_beta_zero :
    ¬ ((statePrices (1 / 2) 0 100 100).q_G / (statePrices (1 / 2) 0 100 100).q_B =
        ((1 : ℚ) / 2) / (1 - 1 / 2) * (100 / 100)) := by
  norm_num [statePrices]

/-- C6 (amended): for every `π ∈ (0,1)`, `β ≠ 0`, `c1_G > 0`,
`c1_B > 0`, the outputs of `statePrices` satisfy
`q_G / q_B = (π/(1−π))·(c1_B/c1_G)` exactly. -/
theorem state_price_ratio_eq (pi beta_risk c1_G c1_B : ℚ)
    (h1 : 0 < pi) (h2 : pi < 1) (hb : beta_risk ≠ 0)
    (hG : 0 < c1_G) (hB : 0 < c1_B) :
    (statePrices pi beta_risk c1_G c1_B).q_G /
      (statePrices pi beta_risk c1_G c1_B).q_B =
      pi / (1 - pi) * (c1_B / c1_G) := by
  have hpi : pi ≠ 0 := ne_of_gt h1
  have hpi1 : 1 - pi ≠ 0 := by
    intro h
    apply absurd h2
    simp only [not_lt]
    linarith [sub_eq_zero.mp h]
  have hGne : c1_G ≠ 0 := ne_of_gt hG
  have hBne : c1_B ≠ 0 := ne_of_gt hB
  simp only [statePrices]
  field_simp
  ring

/-- Witness for `state_price_ratio_eq` at
`(π, β, c1_G, c1_B) = (3/5, 19/20, 120, 80)`. -/
theorem state_price_ratio_eq_witness :
    (0 : ℚ) < 3 / 5 ∧
    (statePrices (3 / 5) (19 / 20) 120 80).q_G /
      (statePrices (3 / 5) (19 / 20) 120 80).q_B =
      (3 / 5 : ℚ) / (1 - 3 / 5) * (80 / 120) :=
  ⟨by norm_num,
   state_price_ratio_eq (3 / 5) (19 / 20) 120 80 (by norm_num) (by norm_num)
     (by norm_num) (by norm_num) (by norm_num)⟩

/-- C7 counterexample: at `π = 1/2`, `β = 19/20`, `c1_G = c1_B = 100`
the value `rf_rate` returned by `statePrices` is `100/19` (the rate in
percent), not the net rate `1/(q_G + q_B) − 1 = 1/19` of the claim. -/
theorem rf_rate_not_net_rate :
    (statePrices (1 / 2) (19 / 20) 100 100).rf_rate ≠
      1 / ((statePrices (1 / 2) (19 / 20) 100 100).q_G +
        (statePrices (1 / 2) (19 / 20) 100 100).q_B) - 1 := by
  norm_num [statePrices]

/-- C7 (amended): for every input, `statePrices` returns
`q_G = β·π·c0/c1_G` and `q_B = β·(1−π)·c0/c1_B` with `c0 = 100`, and a
`rf_rate` equal to `(1/(q_G + q_B) − 1) · 100`, i.e. the risk-free rate
`1/price − 1` with `price = q_G + q_B`, expressed in percent. -/
theorem statePrices_outputs (pi beta_risk c1_G c1_B : ℚ) :
    (statePrices pi beta_risk c1_G c1_B).q_G = beta_risk * pi * 100 / c1_G ∧
    (statePrices pi beta_risk c1_G c1_B).q_B =
      beta_risk * (1 - pi) * 100 / c1_B ∧
    (statePrices pi beta_risk c1_G c1_B).rf_rate =
      (1 / ((statePrices pi beta_risk c1_G c1_B).q_G +
        (statePrices pi beta_risk c1_G c1_B).q_B) - 1) * 100 := by
  refine ⟨?_, ?_, rfl⟩ <;>
    · simp only [statePrices]
      ring

/-- C8: for every maturity `T ≥ 1` and yield `r ≥ 0`, the coupon-bond
formula with coupon `C = 0` reduces to the discount-bond formula scaled
by the face value: `couponBondPrice T 0 F r = discountBondPrice T r · F`. -/
theorem coupon_bond_zero_coupon_reduces (T : ℕ) (F r : ℚ)
    (_h1 : 1 ≤ T) (h2 : 0 ≤ r) :
    (couponBondPrice T 0 F r).total = discountBondPrice T r * F := by
  have hx : ((1 : ℚ) + r) ^ T ≠ 0 := pow_ne_zero _ (by linarith)
  simp only [couponBondPrice, pv_coupons, pv_face, discountBondPrice, zero_div,
    Finset.sum_const_zero, zero_add]
  rw [one_div, div_eq_mul_inv, mul_comm]

/-- Witness for `coupon_bond_zero_coupon_reduces` at
`(T, F, r) = (10, 100, 0.03)`. -/
theorem coupon_bond_zero_coupon_reduces_witness :
    1 ≤ 10 ∧
    (couponBondPrice 10 0 100 (3 / 100)).total =
      discountBondPrice 10 (3 / 100) * 100 :=
  ⟨by norm_num,
   coupon_bond_zero_coupon_reduces 10 100 (3 / 100) (by norm_num) (by norm_num)⟩

/-- C9: for every input with `1 + rf ≠ 0` and
`qG·(1+rf) + qB·(1+rf) ≠ 0`, `priceRiskyAsset` returns
`price_AD = qG·Cgood + qB·Cbad`; `price_RN` obtained from the
risk-neutral probabilities `π̂ = q·(1+rf)` normalized by their sum,
discounted at `1 + rf`; and `price_RA = (π·Cgood + (1−π)·Cbad − ψ)/(1+rf)`. -/
theorem priceRiskyAsset_closed_form (qG qB C_good C_bad pi rf psi : ℚ)
    (_h1 : 1 + rf ≠ 0) (_h2 : qG * (1 + rf) + qB * (1 + rf) ≠ 0) :
    (priceRiskyAsset qG qB C_good C_bad pi rf psi).price_AD =
      qG * C_good + qB * C_bad ∧
    (priceRiskyAsset qG qB C_good C_bad pi rf psi).price_RN =
      (qG * (1 + rf) / (qG * (1 + rf) + qB * (1 + rf)) * C_good +
        qB * (1 + rf) / (qG * (1 + rf) + qB * (1 + rf)) * C_bad) / (1 + rf) ∧
    (priceRiskyAsset qG qB C_good C_bad pi rf psi).price_RA =
      (pi * C_good + (1 - pi) * C_bad - psi) / (1 + rf) := by
  exact ⟨rfl, rfl, rfl⟩

/-- Witness for `priceRiskyAsset_closed_form` at the widget constants
`(qG, qB, Cgood, Cbad, π, rf, ψ) = (0.45, 0.52, 150, 50, 0.6, 0.03, 5)`. -/
theorem priceRiskyAsset_closed_form_witness :
    (1 + (3 : ℚ) / 100 ≠ 0) ∧
    (priceRiskyAsset (45 / 100) (52 / 100) 150 50 (3 / 5) (3 / 100) 5).price_AD =
      (45 / 100 : ℚ) * 150 + (52 / 100 : ℚ) * 50 :=
  ⟨by norm_num,
   (priceRiskyAsset_closed_form (45 / 100) (52 / 100) 150 50 (3 / 5) (3 / 100) 5
     (by norm_num) (by norm_num)).1⟩

/-- C10: when the per-session PDF resource is absent (the file store
returns `none` for the path), the page renders a user-visible error
element and returns normally: the reusable `session_page` template
still produces the title, description and download header, and in the
Session 1 page every element other than the outcome of the download
try/except is produced unchanged, for every widget-input state. -/
theorem missing_pdf_reported_not_fatal
    (fs : String → Option String) (title description p : String)
    (inp : Session1Inputs)
    (h1 : fs p = none) (h2 : fs "summaries/session1_summary.pdf" = none) :
    session_page fs title description (some p) =
      [PageElement.titleE title, PageElement.writeE description,
       PageElement.writeE "### Download Summary",
       PageElement.errorE ("PDF not found at path: " ++ p)] ∧
    PageElement.errorE "PDF not found. Please contact the instructor."
      ∈ session1_page inp fs ∧
    ∀ fs2 : String → Option String,
      removeDownloadSection (session1_page inp fs2) =
        removeDownloadSection (session1_page inp fs) := by
  refine ⟨?_, ?_, ?_⟩
  · simp [session_page, h1]
  · simp [session1_page, h2]
  · intro fs2
    simp only [session1_page, removeDownloadSection, List.filter_append, h2]
    congr 2
    cases hfs2 : fs2 "summaries/session1_summary.pdf" <;>
      simp [is_download_outcome]

/-- Witness for `missing_pdf_reported_not_fatal` on the empty file
store with the default widget inputs. -/
theorem missing_pdf_reported_not_fatal_witness :
    fsNone "summaries/session1_summary.pdf" = none ∧
    PageElement.errorE "PDF not found. Please contact the instructor."
      ∈ session1_page session1DefaultInputs fsNone ∧
    removeDownloadSection (session1_page session1DefaultInputs fsSome) =
      removeDownloadSection (session1_page session1DefaultInputs fsNone) :=
  ⟨rfl,
   (missing_pdf_reported_not_fatal fsNone "Session" "desc" "notes.pdf"
     session1DefaultInputs rfl rfl).2.1,
   (missing_pdf_reported_not_fatal fsNone "Session" "desc" "notes.pdf"
     session1DefaultInputs rfl rfl).2.2 fsSome⟩
